import Mathlib

/-!
Verification development for the Repo Scorer AI application (`app.py`).

The application is a thin orchestration layer: it validates a GitHub URL,
fetches repository metadata over HTTP (`fetch_repo_data`), builds a prompt and
calls an LLM (`get_ai_analysis`), parses the LLM's JSON reply after stripping
markdown fences, and renders the result (`main`).

The embedding below translates each of these functions into Lean.  Network
and LLM behavior is passed in explicitly (a `CallResult` per HTTP request and
an `Except` for the LLM call), Python dictionaries and JSON values are
modelled by `JsonV`, and Streamlit display calls are modelled as `UIEvent`
values collected in order.
-/

namespace RepoScorer

/-- JSON values as produced by Python's `json.loads` (and Python `None`,
which `json` identifies with JSON `null`).  Objects are association lists in
insertion order with unique keys, matching Python `dict` semantics.  Numeric
values are modelled as integers; the application's data (stars, forks,
commit counts, scores) is integral. -/
inductive JsonV where
  | null
  | bool (b : Bool)
  | num (n : Int)
  | str (s : String)
  | arr (xs : List JsonV)
  | obj (fields : List (String × JsonV))
deriving Repr

/-- Python `dict` lookup: first (and by construction only) binding of a key. -/
def dictGet (fields : List (String × JsonV)) (k : String) : Option JsonV :=
  match fields with
  | [] => none
  | (k', v) :: rest => if k' = k then some v else dictGet rest k

/-- Python `d.get(k, default)`: the stored value when the key is present
(even when that value is `null`/`None`), the default only when the key is
absent. -/
def pyGet (fields : List (String × JsonV)) (k : String) (default : JsonV) : JsonV :=
  (dictGet fields k).getD default

/-- Python `dict` insertion as performed by `json.loads` while reading an
object: a repeated key overwrites the value in place, keeping the original
position. -/
def dictInsert (fields : List (String × JsonV)) (k : String) (v : JsonV) :
    List (String × JsonV) :=
  match fields with
  | [] => [(k, v)]
  | (k', v') :: rest => if k' = k then (k, v) :: rest else (k', v') :: dictInsert rest k v

/-- Python truthiness of a JSON-decoded value (`bool(x)`). -/
def pyTruthy : JsonV → Bool
  | .null => false
  | .bool b => b
  | .num n => n ≠ 0
  | .str s => s ≠ ""
  | .arr xs => !xs.isEmpty
  | .obj fs => !fs.isEmpty

/-- Python `repr` of a JSON-decoded value, as used by `str` on containers. -/
def pyRepr : JsonV → String
  | .null => "None"
  | .bool true => "True"
  | .bool false => "False"
  | .num n => toString n
  | .str s => "'" ++ s ++ "'"
  | .arr xs => "[" ++ String.intercalate ", " (xs.attach.map fun ⟨x, hx⟩ => pyRepr x) ++ "]"
  | .obj fs =>
      "\x7b" ++
        String.intercalate ", "
          (fs.attach.map fun ⟨(k, v), hkv⟩ => "'" ++ k ++ "': " ++ pyRepr v) ++
      "\x7d"
decreasing_by
  · simp only [JsonV.arr.sizeOf_spec]
    have h := List.sizeOf_lt_of_mem hx
    omega
  · simp only [JsonV.obj.sizeOf_spec]
    have h := List.sizeOf_lt_of_mem hkv
    simp at h
    omega

/-- Python `str` of a JSON-decoded value, as applied by f-string interpolation:
a string is used as-is, every other value through its `repr`. -/
def pyStr : JsonV → String
  | .str s => s
  | v => pyRepr v

/-- The characters removed by Python's `str.strip()` with no argument. -/
def isPyWhitespace (c : Char) : Bool :=
  c = ' ' || c = '\t' || c = '\n' || c = '\r' || c = '\x0b' || c = '\x0c'

/-- Python `s.strip()`. -/
def pyStrip (s : String) : String :=
  ⟨((s.data.dropWhile isPyWhitespace).reverse.dropWhile isPyWhitespace).reverse⟩

/-- Python `s.rstrip(c)` for a single-character strip set. -/
def pyRstripChar (c : Char) (s : String) : String :=
  ⟨(s.data.reverse.dropWhile (· = c)).reverse⟩

/-- Python `s.startswith(pre)`. -/
def pyStartsWith (s pre : String) : Bool :=
  pre.data.isPrefixOf s.data

/-- Removal of the first occurrence of a non-empty pattern, i.e.
Python `s.replace(pat, "", 1)` as used on the fence markers. -/
def removeFirstAux (pat : List Char) : List Char → List Char
  | [] => []
  | c :: rest =>
      if pat.isPrefixOf (c :: rest) then (c :: rest).drop pat.length
      else c :: removeFirstAux pat rest

/-- Python `s.replace(pat, "", 1)` (the pattern is non-empty at both call
sites in the source). -/
def pyRemoveFirst (s pat : String) : String :=
  ⟨removeFirstAux pat.data s.data⟩

/-- Python `s.split(sep)` for a single-character separator, on character
lists. -/
def pySplitCharAux (sep : Char) : List Char → List (List Char)
  | [] => [[]]
  | c :: rest =>
      match pySplitCharAux sep rest with
      | [] => [[]]
      | g :: gs => if c = sep then [] :: g :: gs else (c :: g) :: gs

/-- Python `s.split(sep)` for a single-character separator. -/
def pySplitChar (sep : Char) (s : String) : List String :=
  (pySplitCharAux sep s.data).map fun cs => ⟨cs⟩

/-- Substring containment, Python `sub in s` on strings. -/
def listHasInfix (pat : List Char) : List Char → Bool
  | [] => pat.isEmpty
  | c :: rest => pat.isPrefixOf (c :: rest) || listHasInfix pat rest

/-! ### A model of Python's `json.loads`

The application parses the LLM reply with `json.loads`.  The parser below
follows the JSON grammar that `json.loads` accepts in strict mode: the
literals `null`/`true`/`false`, double-quoted strings with the standard
escapes (raw control characters rejected), integers without leading zeros,
arrays and objects, with JSON whitespace between tokens and nothing but
whitespace after the top-level value.  Numbers with a fraction or exponent
(floats) are outside the integral `JsonV.num` model and make the model
parser fail; no datum handled by the application carries float syntax. -/

/-- JSON inter-token whitespace. -/
def skipWs (cs : List Char) : List Char :=
  cs.dropWhile fun c => c = ' ' || c = '\t' || c = '\n' || c = '\r'

/-- Value of a hexadecimal digit, if any (by code point: `0`-`9`, `a`-`f`,
`A`-`F`). -/
def hexVal (c : Char) : Option Nat :=
  let n := c.toNat
  if 48 ≤ n ∧ n ≤ 57 then some (n - 48)
  else if 97 ≤ n ∧ n ≤ 102 then some (n - 87)
  else if 65 ≤ n ∧ n ≤ 70 then some (n - 55)
  else none

/-- The single-character JSON string escapes. -/
def escChar (e : Char) : Option Char :=
  if e = 'n' then some '\n'
  else if e = 't' then some '\t'
  else if e = 'r' then some '\r'
  else if e = '"' then some '"'
  else if e = '\\' then some '\\'
  else if e = '/' then some '/'
  else if e = 'b' then some '\x08'
  else if e = 'f' then some '\x0c'
  else none

/-- Body of a JSON string after the opening quote: the decoded characters
and the remaining input after the closing quote. -/
def parseJStringAux : List Char → Option (List Char × List Char)
  | [] => none
  | '"' :: rest => some ([], rest)
  | '\\' :: 'u' :: h1 :: h2 :: h3 :: h4 :: rest =>
      match hexVal h1, hexVal h2, hexVal h3, hexVal h4 with
      | some a, some b, some c, some d =>
          (parseJStringAux rest).map fun p =>
            (Char.ofNat (((a * 16 + b) * 16 + c) * 16 + d) :: p.1, p.2)
      | _, _, _, _ => none
  | '\\' :: e :: rest =>
      match escChar e with
      | some c => (parseJStringAux rest).map fun p => (c :: p.1, p.2)
      | none => none
  | ['\\'] => none
  | c :: rest =>
      if c.toNat < 32 then none
      else (parseJStringAux rest).map fun p => (c :: p.1, p.2)

/-- Value of one decimal digit, by code point. -/
def digitVal (c : Char) : Nat :=
  c.toNat - 48

/-- Decimal value of a digit run. -/
def digitsToNat (ds : List Char) : Nat :=
  ds.foldl (fun a c => 10 * a + digitVal c) 0

/-- A JSON number (integral only, see the parser note above). -/
def parseJNumber (cs : List Char) : Option (JsonV × List Char) :=
  let neg := match cs with | '-' :: _ => true | _ => false
  let cs₁ := if neg then cs.drop 1 else cs
  let digits := cs₁.takeWhile Char.isDigit
  let rest := cs₁.dropWhile Char.isDigit
  if digits.isEmpty then none
  else if digits.length > 1 ∧ digits.head? = some '0' then none
  else
    match rest with
    | '.' :: _ => none
    | 'e' :: _ => none
    | 'E' :: _ => none
    | _ =>
        let n : Int := digitsToNat digits
        some (.num (if neg then -n else n), rest)

mutual

/-- A JSON value at the head of the input (leading whitespace allowed). -/
def parseJValue (fuel : Nat) (cs : List Char) : Option (JsonV × List Char) :=
  match fuel with
  | 0 => none
  | fuel + 1 =>
    let cs := skipWs cs
    match cs with
    | [] => none
    | '"' :: rest => (parseJStringAux rest).map fun p => (.str ⟨p.1⟩, p.2)
    | '[' :: rest =>
        match skipWs rest with
        | ']' :: rest' => some (.arr [], rest')
        | rest' => parseJArrayRest fuel rest' []
    | '\x7b' :: rest =>
        match skipWs rest with
        | '\x7d' :: rest' => some (.obj [], rest')
        | rest' => parseJObjectRest fuel rest' []
    | c :: _ =>
        if "null".data.isPrefixOf cs then some (.null, cs.drop 4)
        else if "true".data.isPrefixOf cs then some (.bool true, cs.drop 4)
        else if "false".data.isPrefixOf cs then some (.bool false, cs.drop 5)
        else if c = '-' || c.isDigit then parseJNumber cs
        else none

/-- Elements of an array after `[`, expecting a value next. -/
def parseJArrayRest (fuel : Nat) (cs : List Char) (acc : List JsonV) :
    Option (JsonV × List Char) :=
  match fuel with
  | 0 => none
  | fuel + 1 =>
    match parseJValue fuel cs with
    | none => none
    | some (v, rest) =>
        match skipWs rest with
        | ',' :: rest' => parseJArrayRest fuel rest' (acc ++ [v])
        | ']' :: rest' => some (.arr (acc ++ [v]), rest')
        | _ => none

/-- Members of an object after `\x7b`, expecting a `"key": value` pair next. -/
def parseJObjectRest (fuel : Nat) (cs : List Char) (acc : List (String × JsonV)) :
    Option (JsonV × List Char) :=
  match fuel with
  | 0 => none
  | fuel + 1 =>
    match skipWs cs with
    | '"' :: rest =>
        match parseJStringAux rest with
        | none => none
        | some (key, rest₁) =>
            match skipWs rest₁ with
            | ':' :: rest₂ =>
                match parseJValue fuel rest₂ with
                | none => none
                | some (v, rest₃) =>
                    let acc := dictInsert acc ⟨key⟩ v
                    match skipWs rest₃ with
                    | ',' :: rest₄ => parseJObjectRest fuel rest₄ acc
                    | '\x7d' :: rest₄ => some (.obj acc, rest₄)
                    | _ => none
            | _ => none
    | _ => none

end

/-- Python `json.loads`: parse one JSON value and require only whitespace
after it. -/
def json_loads (s : String) : Option JsonV :=
  match parseJValue (s.data.length + 1) s.data with
  | some (v, rest) => if (skipWs rest).isEmpty then some v else none
  | none => none

/-! ### Network and UI effect model

Every HTTP request made through `requests` either produces a response or
raises.  A response carries a status code and a body; the body is `none`
when it is not valid JSON, so that calling `.json()` on it raises (the
surrounding `except Exception` then converts that into the generic failure).
The LLM call produces the reply text or raises.  Messages carried by
exceptions raised inside the Python runtime (JSON decode errors, attribute
and type errors) are represented by fixed descriptive strings; the claims
only depend on which handler receives them, never on their exact wording. -/

/-- Outcome of one `requests.get`/`requests.head` call. -/
inductive CallResult where
  | resp (status : Nat) (body : Option JsonV)
  | timeout
  | exc (msg : String)

/-- A Streamlit display call issued while handling one request. -/
inductive UIEvent where
  | errorMsg (s : String)
  | infoMsg (s : String)
  | successMsg (s : String)
  | codeBlock (s : String)
  | rendered
deriving Repr, DecidableEq

/-! ### `fetch_repo_data` (app.py lines 33-66) -/

/-- The dictionary returned by a successful `fetch_repo_data` (lines 52-62).
Every key is always present; values other than `commits` and `readme` are
whatever JSON the API supplied (possibly `null`). -/
structure RepoRecord where
  name : JsonV
  description : JsonV
  stars : JsonV
  forks : JsonV
  language : JsonV
  url : JsonV
  commits : Nat
  readme : String
  topics : JsonV
deriving Repr

/-- `fetch_repo_data(owner, repo, token)` with the outcome of each of its
three HTTP calls supplied explicitly.  `.error s` is the `{"error": s}`
dictionary the source returns on failure, `.ok` the repository record.
The evaluation order follows the source: the primary repo call, then the
commits call, then the README `HEAD` call, then the record construction
(where `.get` on a non-dict primary body raises `AttributeError`).  The
`owner`, `repo` and `token` arguments only shape the request URLs/headers
and do not influence the modelled control flow. -/
def fetch_repo_data (owner repo : String) (token : Option String)
    (primary commits readme : CallResult) : Except String RepoRecord :=
  match primary with
  | .timeout => .error "Request to GitHub timed out."
  | .exc m => .error ("An unexpected error occurred: " ++ m)
  | .resp status body =>
    if status ≠ 200 then
      -- line 42: repo_response.json().get('message', 'Unknown Error')
      match body with
      | some (.obj fs) =>
          .error ("GitHub API failed: " ++ toString status ++ " - " ++
            pyStr (pyGet fs "message" (.str "Unknown Error")))
      | some _ => .error ("An unexpected error occurred: " ++ "AttributeError")
      | none => .error ("An unexpected error occurred: " ++ "JSONDecodeError")
    else
      -- line 44: repo_data = repo_response.json()
      match body with
      | none => .error ("An unexpected error occurred: " ++ "JSONDecodeError")
      | some repo_data =>
        -- lines 46-47: commits fetch and .json()
        match commits with
        | .timeout => .error "Request to GitHub timed out."
        | .exc m => .error ("An unexpected error occurred: " ++ m)
        | .resp _ cbody =>
          match cbody with
          | none => .error ("An unexpected error occurred: " ++ "JSONDecodeError")
          | some commits_data =>
            -- lines 49-51: README HEAD check
            match readme with
            | .timeout => .error "Request to GitHub timed out."
            | .exc m => .error ("An unexpected error occurred: " ++ m)
            | .resp rstatus _ =>
              let readme_text :=
                if rstatus = 200 then "README exists and is accessible"
                else "No README found"
              -- lines 52-62: record construction via repo_data.get(...)
              match repo_data with
              | .obj fs =>
                  .ok {
                    name := pyGet fs "name" .null,
                    description := pyGet fs "description" .null,
                    stars := pyGet fs "stargazers_count" (.num 0),
                    forks := pyGet fs "forks_count" (.num 0),
                    language := pyGet fs "language" (.str "Unknown"),
                    url := pyGet fs "html_url" .null,
                    commits :=
                      match commits_data with
                      | .arr xs => xs.length
                      | _ => 0,
                    readme := readme_text,
                    topics := pyGet fs "topics" (.arr []) }
              | _ => .error ("An unexpected error occurred: " ++ "AttributeError")

/-! ### `get_ai_analysis` (app.py lines 69-119) -/

/-- `', '.join(x)` for a JSON-decoded `x`: joining a list requires every
element to be a string (`none` models the `TypeError` raised otherwise);
joining a string iterates its characters; joining a dict iterates its keys;
other values are not iterable. -/
def pyJoinCommaSpace : JsonV → Option String
  | .arr xs =>
      if xs.all fun v => match v with | .str _ => true | _ => false then
        some (String.intercalate ", "
          (xs.map fun v => match v with | .str s => s | _ => ""))
      else none
  | .str s => some (String.intercalate ", " (s.data.map fun c => ⟨[c]⟩))
  | .obj fs => some (String.intercalate ", " (fs.map fun f => f.1))
  | _ => none

/-- The `topics` entry of `data_for_prompt` (line 78):
`', '.join(repo_data.get('topics', [])) if repo_data.get('topics') else 'None'`.
The record always carries the `topics` key, so both `get` calls return its
value. -/
def topicsRendered (r : RepoRecord) : Option String :=
  if pyTruthy r.topics then pyJoinCommaSpace r.topics else some "None"

/-- The prompt text up to and including `- Topics: ` (lines 81-91), with
every `data_for_prompt` entry interpolated by `str()`.  The record always
carries every key, so the `.get` defaults of lines 71-77 never apply. -/
def promptPrefix (r : RepoRecord) : String :=
  "You are an AI Coding Mentor. Analyze this GitHub repository and provide a structured evaluation focused on giving honest, actionable feedback.\n\nRepository Data:\n- Name: " ++
  pyStr r.name ++
  "\n- Description: " ++ pyStr r.description ++
  "\n- Stars: " ++ pyStr r.stars ++
  "\n- Forks: " ++ pyStr r.forks ++
  "\n- Language: " ++ pyStr r.language ++
  "\n- Total Commits (from last 50): " ++ toString r.commits ++
  "\n- README Status: " ++ r.readme ++
  "\n- Topics: "

/-- The prompt text after the topics line (lines 93-104); the doubled braces
of the Python f-string render as single braces here. -/
def promptSuffix : String :=
  "\n\nProvide a JSON response with exactly this structure:\n\x7b\n    \"score\": <0-100 integer>,\n    \"level\": \"<Beginner/Intermediate/Advanced>\",\n    \"medal\": \"<Bronze/Silver/Gold>\",\n    \"summary\": \"<2-3 sentences of honest feedback on the project's current quality, structure, and potential.>\",\n    \"strengths\": [\"<strength1>\", \"<strength2>\", \"<strength3>\"],\n    \"improvements\": [\"<improvement1>\", \"<improvement2>\", \"<improvement3>\"],\n    \"roadmap\": [\"<Actionable Step 1, e.g., Add unit tests>\", \"<Actionable Step 2, e.g., Improve folder structure>\", \"<Actionable Step 3, e.g., Commit regularly>\"]\n\x7d\n\nBe critical but fair. Score based on code quality, documentation, popularity, activity, and practical usefulness. The 'roadmap' array MUST provide 3-5 specific, actionable steps the student can immediately follow to improve the project's grade, focusing on documentation, testing, and Git best practices."

/-- The prompt built from a repository record (lines 70-104); `none` models
the `TypeError` raised when the topics value cannot be comma-joined. -/
def buildPrompt (r : RepoRecord) : Option String :=
  (topicsRendered r).map fun ts => promptPrefix r ++ ts ++ promptSuffix

/-- The markdown-fence stripping applied to the LLM reply before parsing
(lines 107-112): trim, then if the text starts with ```` ```json ````
remove that marker's first occurrence, all trailing backticks, and trim
again; else the same with a plain ```` ``` ```` marker. -/
def stripFences (text : String) : String :=
  let response_text := pyStrip text
  if pyStartsWith response_text "```json" then
    pyStrip (pyRstripChar '`' (pyRemoveFirst response_text "```json"))
  else if pyStartsWith response_text "```" then
    pyStrip (pyRstripChar '`' (pyRemoveFirst response_text "```"))
  else response_text

/-- Post-processing of the LLM reply text (lines 107-119): fence stripping
followed by `json.loads`.  On parse failure the source shows an error
message, shows the (stripped) `response_text` in a code block, and returns
the `{"error": "Invalid AI response format."}` dictionary. -/
def parse_ai_text (text : String) : JsonV × List UIEvent :=
  let response_text := stripFences text
  match json_loads response_text with
  | some result => (result, [])
  | none =>
      (.obj [("error", .str "Invalid AI response format.")],
       [UIEvent.errorMsg "Failed to parse AI response. The model may have returned invalid JSON.",
        UIEvent.codeBlock response_text])

/-- `get_ai_analysis(repo_data)` with the LLM call's outcome supplied
explicitly (`.error` models `model.generate_content`/`response.text`
raising).  The first component is the function's outcome: `.error` when a
Python exception escapes it (prompt construction `TypeError` or LLM raise),
`.ok` the returned value with the display calls it made.  The second
component counts LLM invocations (`0` when the prompt construction raises
before `generate_content` is reached). -/
def get_ai_analysis (repo_data : RepoRecord) (llm : Except String String) :
    Except String (JsonV × List UIEvent) × Nat :=
  match buildPrompt repo_data with
  | none => (.error "TypeError", 0)
  | some _prompt =>
    match llm with
    | .error m => (.error m, 1)
    | .ok text => (.ok (parse_ai_text text), 1)

/-! ### `main` (app.py lines 122-231) -/

/-- Python `"error" in result` for a JSON-decoded `result`: key lookup on a
dict, element equality on a list, substring test on a string; `.error`
models the `TypeError` raised on non-container values. -/
def pyInError (result : JsonV) : Except String Bool :=
  match result with
  | .obj fs => .ok (fs.any fun f => f.1 = "error")
  | .arr xs => .ok (xs.any fun v => match v with | .str s => s = "error" | _ => false)
  | .str s => .ok (listHasInfix "error".data s.data)
  | _ => .error "TypeError"

/-- The result-rendering section (lines 168-228), abstracted to a single
`rendered` event.  The `result.get(...)` calls of lines 178-224 require
`result` to be a dict and raise `AttributeError` otherwise; per-field
Streamlit display details inside the section carry no further modelled
state. -/
def renderResults (repo_data : RepoRecord) (result : JsonV) :
    Except String (List UIEvent) :=
  match result with
  | .obj _ => .ok [UIEvent.rendered]
  | _ => .error "AttributeError"

/-- `repo_url.strip().rstrip('/').split('/')` (line 145). -/
def urlParts (repo_url : String) : List String :=
  pySplitChar '/' (pyRstripChar '/' (pyStrip repo_url))

/-- The validation test of line 146:
`len(url_parts) < 2 or url_parts[-2] == "" or url_parts[-1] == ""`. -/
def urlInvalid (parts : List String) : Bool :=
  decide (parts.length < 2) || parts.getD (parts.length - 2) "" = "" ||
    parts.getD (parts.length - 1) "" = ""

/-- `url_parts[-2]` (line 150). -/
def urlOwner (repo_url : String) : String :=
  (urlParts repo_url).getD ((urlParts repo_url).length - 2) ""

/-- `url_parts[-1]` (line 151). -/
def urlRepo (repo_url : String) : String :=
  (urlParts repo_url).getD ((urlParts repo_url).length - 1) ""

/-- The world a single analysis request runs against: the outcome of each
GitHub call and of the LLM call, were they to be made. -/
structure World where
  primary : CallResult
  commits : CallResult
  readme : CallResult
  llm : Except String String

/-- Result of one button-press handling in `main`: the session state
(`st.session_state.last_analyzed_url`, `none` while unset) after the
request, the display calls made, and how many GitHub fetches
(`fetch_repo_data` invocations) and LLM calls were performed. -/
structure StepOut where
  state : Option String
  events : List UIEvent
  fetchCalls : Nat
  llmCalls : Nat
deriving Repr, DecidableEq

/-- One button-press of `main` (lines 134-231): the empty-input check, the
duplicate guard, URL validation, fetch, analysis, the silent discard of an
`"error"`-keyed result, and rendering, with the surrounding
`try/except Exception` converting any escaped exception into the
unexpected-error message.  `last` is the session's `last_analyzed_url`
before the press. -/
def mainStep (last : Option String) (repo_url : String) (w : World) : StepOut :=
  if repo_url = "" then
    ⟨last, [.errorMsg "Please enter a repository URL."], 0, 0⟩
  else if last = some repo_url then
    ⟨last, [.infoMsg "Repository already analyzed. Please enter a new URL or refresh the page to re-analyze."], 0, 0⟩
  else
    let parts := urlParts repo_url
    if urlInvalid parts then
      ⟨last, [.errorMsg "Invalid repository URL format. Please use the full URL."], 0, 0⟩
    else
      match fetch_repo_data (urlOwner repo_url) (urlRepo repo_url) none
          w.primary w.commits w.readme with
      | .error e =>
          ⟨last, [.errorMsg ("Error fetching repository data: " ++ e)], 1, 0⟩
      | .ok repo_data =>
        match get_ai_analysis repo_data w.llm with
        | (.error m, n) =>
            ⟨last, [.errorMsg ("An unexpected error occurred during analysis: " ++ m)], 1, n⟩
        | (.ok (result, aievents), n) =>
          match pyInError result with
          | .error m =>
              ⟨last, aievents ++ [.errorMsg ("An unexpected error occurred during analysis: " ++ m)], 1, n⟩
          | .ok true => ⟨last, aievents, 1, n⟩
          | .ok false =>
            match renderResults repo_data result with
            | .error m =>
                ⟨some repo_url,
                 aievents ++ [.successMsg "Analysis Complete!",
                   .errorMsg ("An unexpected error occurred during analysis: " ++ m)], 1, n⟩
            | .ok revents =>
                ⟨some repo_url,
                 aievents ++ [.successMsg "Analysis Complete!"] ++ revents, 1, n⟩

/-! ### Helper lemmas -/

/-- `get_ai_analysis` reports exactly one LLM call whenever it returns a
value (the `0`-call exit exists only on the prompt-construction raise). -/
theorem get_ai_analysis_ok_calls (rd : RepoRecord) (llm : Except String String)
    (x : JsonV × List UIEvent) (n : Nat)
    (h : get_ai_analysis rd llm = (.ok x, n)) : n = 1 := by
  unfold get_ai_analysis at h
  cases hb : buildPrompt rd with
  | none => rw [hb] at h; exact absurd h (by simp)
  | some p =>
      rw [hb] at h
      cases llm with
      | error m => exact absurd h (by simp)
      | ok text => simp at h; exact h.2.symm

/-- Reading back a list of strings injected into JSON values. -/
theorem strs_roundtrip (ss : List String) :
    (ss.map JsonV.str).map (fun v => match v with | .str s => s | _ => "") = ss := by
  induction ss with
  | nil => rfl
  | cons a t ih => simp only [List.map_cons, ih]

/-- A list of injected strings passes the all-strings check of the join. -/
theorem strs_all (ss : List String) :
    (ss.map JsonV.str).all (fun v => match v with | .str _ => true | _ => false) = true := by
  induction ss with
  | nil => rfl
  | cons a t ih => simp only [List.map_cons, List.all_cons, ih, Bool.and_true]

/-- Inversion of a successful fetch: a `RepoRecord` is produced exactly when
the primary call returned `200` with a JSON-object body, both secondary
calls returned responses with JSON bodies, and the record then has the shape
built on lines 52-62. -/
theorem fetch_repo_data_ok_inversion (owner repo : String) (token : Option String)
    (primary commits readme : CallResult) (rec : RepoRecord)
    (hok : fetch_repo_data owner repo token primary commits readme = .ok rec) :
    ∃ fs cs cb rs rb,
      primary = .resp 200 (some (.obj fs)) ∧ commits = .resp cs (some cb) ∧
      readme = .resp rs rb ∧
      rec = { name := pyGet fs "name" .null,
              description := pyGet fs "description" .null,
              stars := pyGet fs "stargazers_count" (.num 0),
              forks := pyGet fs "forks_count" (.num 0),
              language := pyGet fs "language" (.str "Unknown"),
              url := pyGet fs "html_url" .null,
              commits := match cb with | .arr xs => xs.length | _ => 0,
              readme := if rs = 200 then "README exists and is accessible"
                        else "No README found",
              topics := pyGet fs "topics" (.arr []) } := by
  cases primary with
  | timeout => exact absurd hok (by simp [fetch_repo_data])
  | exc m => exact absurd hok (by simp [fetch_repo_data])
  | resp status body =>
    by_cases h200 : status = 200
    · subst h200
      cases body with
      | none => exact absurd hok (by simp [fetch_repo_data])
      | some repoJson =>
        cases commits with
        | timeout => exact absurd hok (by simp [fetch_repo_data])
        | exc m => exact absurd hok (by simp [fetch_repo_data])
        | resp cs cbody =>
          cases cbody with
          | none => exact absurd hok (by simp [fetch_repo_data])
          | some cb =>
            cases readme with
            | timeout => exact absurd hok (by simp [fetch_repo_data])
            | exc m => exact absurd hok (by simp [fetch_repo_data])
            | resp rs rb =>
              cases repoJson with
              | obj fs =>
                  refine ⟨fs, cs, cb, rs, rb, rfl, rfl, rfl, ?_⟩
                  have h := hok
                  simp [fetch_repo_data] at h
                  exact h.symm
              | null => exact absurd hok (by simp [fetch_repo_data])
              | bool b => exact absurd hok (by simp [fetch_repo_data])
              | num n => exact absurd hok (by simp [fetch_repo_data])
              | str s => exact absurd hok (by simp [fetch_repo_data])
              | arr xs => exact absurd hok (by simp [fetch_repo_data])
    · cases body with
      | none => exact absurd hok (by simp [fetch_repo_data, h200])
      | some b =>
        cases b with
        | obj fs => exact absurd hok (by simp [fetch_repo_data, h200])
        | null => exact absurd hok (by simp [fetch_repo_data, h200])
        | bool bb => exact absurd hok (by simp [fetch_repo_data, h200])
        | num n => exact absurd hok (by simp [fetch_repo_data, h200])
        | str s => exact absurd hok (by simp [fetch_repo_data, h200])
        | arr xs => exact absurd hok (by simp [fetch_repo_data, h200])

/-- Branch analysis of `mainStep`: whenever a button-press changes the
session state, it was the success path — the state became the submitted URL,
exactly one fetch and one LLM call were made, and the success banner was
shown. -/
theorem mainStep_success_shape (last : Option String) (u : String) (w : World)
    (h : (mainStep last u w).state ≠ last) :
    (mainStep last u w).state = some u ∧ (mainStep last u w).fetchCalls = 1 ∧
      (mainStep last u w).llmCalls = 1 ∧
      UIEvent.successMsg "Analysis Complete!" ∈ (mainStep last u w).events := by
  by_cases h1 : u = ""
  · simp [mainStep, h1] at h
  by_cases h2 : last = some u
  · simp [mainStep, h1, h2] at h
  by_cases h3 : urlInvalid (urlParts u) = true
  · simp [mainStep, h1, h2, h3] at h
  rcases hf : fetch_repo_data (urlOwner u) (urlRepo u) none w.primary w.commits w.readme
    with e | rd
  · simp [mainStep, h1, h2, h3, hf] at h
  rcases hg : get_ai_analysis rd w.llm with ⟨res | ⟨result, aievents⟩, n⟩
  · simp [mainStep, h1, h2, h3, hf, hg] at h
  have hn : n = 1 := get_ai_analysis_ok_calls rd w.llm (result, aievents) n hg
  rcases hpe : pyInError result with m | b
  · simp [mainStep, h1, h2, h3, hf, hg, hpe] at h
  cases b with
  | true => simp [mainStep, h1, h2, h3, hf, hg, hpe] at h
  | false =>
    rcases hr : renderResults rd result with m | revents
    · simp [mainStep, h1, h2, h3, hf, hg, hn, hpe, hr]
    · simp [mainStep, h1, h2, h3, hf, hg, hn, hpe, hr]

/-! ### Claim theorems -/

/-- C1 (counterexample): the URL `https://github.com/onlyowner`, whose path
has a single trailing segment, is NOT rejected by the validation of line
146: the split's last two segments are `github.com` and `onlyowner`, both
non-empty, so the request proceeds to a GitHub fetch (one network call) and
reports a fetch error rather than a validation error. -/
theorem onlyowner_url_triggers_network_fetch :
    (mainStep none "https://github.com/onlyowner"
        ⟨.resp 404 (some (.obj [("message", .str "Not Found")])), .timeout, .timeout,
         .ok ""⟩).fetchCalls = 1 ∧
    (mainStep none "https://github.com/onlyowner"
        ⟨.resp 404 (some (.obj [("message", .str "Not Found")])), .timeout, .timeout,
         .ok ""⟩).events =
      [UIEvent.errorMsg
        "Error fetching repository data: GitHub API failed: 404 - Not Found"] :=
  ⟨rfl, rfl⟩

/-- C1 (amended): a non-empty, non-duplicate input URL is rejected with the
validation error and zero network calls exactly when its
strip/rstrip-slash/split decomposition has fewer than two segments or an
empty segment among the last two; a full URL with a single path segment
(such as `https://github.com/onlyowner`) passes this test and is fetched. -/
theorem invalid_url_rejected_without_network (last : Option String) (repo_url : String)
    (w : World) (hne : repo_url ≠ "") (hdup : last ≠ some repo_url)
    (hinv : urlInvalid (urlParts repo_url) = true) :
    mainStep last repo_url w =
      ⟨last, [.errorMsg "Invalid repository URL format. Please use the full URL."],
       0, 0⟩ := by
  simp [mainStep, hne, hdup, hinv]

/-- C1 (witness): the bare string `nourl` splits into a single segment and
is rejected with no network calls. -/
theorem invalid_url_rejected_without_network_witness :
    mainStep none "nourl" ⟨.timeout, .timeout, .timeout, .ok ""⟩ =
      ⟨none, [.errorMsg "Invalid repository URL format. Please use the full URL."],
       0, 0⟩ :=
  invalid_url_rejected_without_network none "nourl" ⟨.timeout, .timeout, .timeout, .ok ""⟩
    (by decide) (by decide) rfl

/-- C2 (counterexample): on a parse failure the text made available in the
diagnostic code block is the fence-stripped `response_text`, not the raw
LLM text: for the raw reply `` ```json not json `` the displayed text is
`not json`, which differs from the raw text. -/
theorem parse_failure_displays_stripped_not_raw :
    (parse_ai_text "```json not json").2 =
      [UIEvent.errorMsg
        "Failed to parse AI response. The model may have returned invalid JSON.",
       UIEvent.codeBlock "not json"] ∧
    "not json" ≠ "```json not json" :=
  ⟨rfl, by decide⟩

/-- C2 (amended): the post-processing is trim; strip a leading ```` ```json ````
marker (first occurrence) and trailing backtick fence, else a plain
```` ``` ```` marker; then JSON-parse — so the two fenced examples and the
unfenced example parse to `{"a": 1}` with no diagnostics, and `not json`
yields the tagged `Invalid AI response format.` failure with the
fence-stripped text made available in the diagnostic code block. -/
theorem ai_response_postprocessing :
    parse_ai_text "```json\n\x7b\"a\":1\x7d\n```" = (.obj [("a", .num 1)], []) ∧
    parse_ai_text "```\n\x7b\"a\":1\x7d\n```" = (.obj [("a", .num 1)], []) ∧
    parse_ai_text "\x7b\"a\":1\x7d" = (.obj [("a", .num 1)], []) ∧
    parse_ai_text "not json" =
      (.obj [("error", .str "Invalid AI response format.")],
       [UIEvent.errorMsg
         "Failed to parse AI response. The model may have returned invalid JSON.",
        UIEvent.codeBlock "not json"]) :=
  ⟨rfl, rfl, rfl, rfl⟩

/-- C3 (counterexample): with the primary call succeeding (200, object
body), a timeout during the secondary commits call aborts the whole fetch
with the tagged timeout failure — no `RepoRecord` is returned and no
degrade-to-default happens. -/
theorem commits_timeout_aborts_fetch :
    fetch_repo_data "x" "y" none (.resp 200 (some (.obj []))) .timeout
        (.resp 200 none) =
      .error "Request to GitHub timed out." :=
  rfl

/-- C3 (amended): when the primary call returns 200 with an object body and
both secondary calls return responses (rather than raising), secondary
failures degrade gracefully: a non-list commits body yields commit count 0
and a non-200 README check yields `No README found`, and a `RepoRecord` is
still returned; a timeout or exception during a secondary call, by
contrast, aborts the whole fetch (see the counterexample). -/
theorem secondary_status_failures_degrade (owner repo : String) (token : Option String)
    (fs : List (String × JsonV)) (cs : Nat) (cb : JsonV) (rs : Nat) (rb : Option JsonV)
    (hc : ∀ xs, cb ≠ JsonV.arr xs) (hr : rs ≠ 200) :
    fetch_repo_data owner repo token (.resp 200 (some (.obj fs)))
        (.resp cs (some cb)) (.resp rs rb) =
      .ok { name := pyGet fs "name" .null,
            description := pyGet fs "description" .null,
            stars := pyGet fs "stargazers_count" (.num 0),
            forks := pyGet fs "forks_count" (.num 0),
            language := pyGet fs "language" (.str "Unknown"),
            url := pyGet fs "html_url" .null,
            commits := 0,
            readme := "No README found",
            topics := pyGet fs "topics" (.arr []) } := by
  cases cb with
  | arr xs => exact absurd rfl (hc xs)
  | null => simp [fetch_repo_data, hr]
  | bool b => simp [fetch_repo_data, hr]
  | num n => simp [fetch_repo_data, hr]
  | str s => simp [fetch_repo_data, hr]
  | obj ofs => simp [fetch_repo_data, hr]

/-- C3 (witness): a 404 commits response (object body) and a 404 README
check still produce a record, with commit count 0 and no README. -/
theorem secondary_status_failures_degrade_witness :
    fetch_repo_data "x" "y" none (.resp 200 (some (.obj [])))
        (.resp 404 (some (.obj [("message", .str "Not Found")]))) (.resp 404 none) =
      .ok { name := .null, description := .null, stars := .num 0, forks := .num 0,
            language := .str "Unknown", url := .null, commits := 0,
            readme := "No README found", topics := .arr [] } :=
  secondary_status_failures_degrade "x" "y" none [] 404
    (.obj [("message", .str "Not Found")]) 404 none
    (fun xs h => JsonV.noConfusion h) (by decide)

/-- C7 (code evaluation at the failing input): when the GitHub repo body
carries `"language": null` — as the API does for a repository with no
detected language — `repo_data.get("language", "Unknown")` returns the
stored `null`, not the default, so the produced record's `language` is
`null` rather than any string. -/
theorem language_null_passthrough :
    fetch_repo_data "octocat" "hello" none
        (.resp 200 (some (.obj [("language", JsonV.null)])))
        (.resp 200 (some (.arr []))) (.resp 200 none) =
      .ok { name := .null, description := .null, stars := .num 0, forks := .num 0,
            language := JsonV.null, url := .null, commits := 0,
            readme := "README exists and is accessible", topics := .arr [] } ∧
    ∀ s, JsonV.null ≠ JsonV.str s :=
  ⟨rfl, fun _ h => JsonV.noConfusion h⟩

/-- C4: submitting the same URL twice in a row within one session, the first
submission completing a successful analysis, performs exactly one GitHub
fetch and one LLM call in total: the first press makes one of each, and the
second press short-circuits on the duplicate guard with the informational
message and zero network calls. -/
theorem duplicate_guard_one_fetch_one_llm (u : String) (w1 w2 : World)
    (hu : u ≠ "") (hs : (mainStep none u w1).state = some u) :
    (mainStep none u w1).fetchCalls = 1 ∧ (mainStep none u w1).llmCalls = 1 ∧
    mainStep (mainStep none u w1).state u w2 =
      ⟨some u,
       [.infoMsg "Repository already analyzed. Please enter a new URL or refresh the page to re-analyze."],
       0, 0⟩ := by
  have hne : (mainStep none u w1).state ≠ none := by rw [hs]; simp
  obtain ⟨_, h2, h3, _⟩ := mainStep_success_shape none u w1 hne
  refine ⟨h2, h3, ?_⟩
  rw [hs]
  simp [mainStep, hu]

/-- C4 (witness): a concrete successful analysis of
`https://github.com/x/y` followed by an identical resubmission. -/
theorem duplicate_guard_one_fetch_one_llm_witness :
    (mainStep none "https://github.com/x/y"
        ⟨.resp 200 (some (.obj [])), .resp 200 (some (.arr [])), .resp 200 none,
         .ok "\x7b\"score\": 90\x7d"⟩).fetchCalls = 1 ∧
    (mainStep none "https://github.com/x/y"
        ⟨.resp 200 (some (.obj [])), .resp 200 (some (.arr [])), .resp 200 none,
         .ok "\x7b\"score\": 90\x7d"⟩).llmCalls = 1 ∧
    mainStep (mainStep none "https://github.com/x/y"
        ⟨.resp 200 (some (.obj [])), .resp 200 (some (.arr [])), .resp 200 none,
         .ok "\x7b\"score\": 90\x7d"⟩).state "https://github.com/x/y"
        ⟨.resp 200 (some (.obj [])), .resp 200 (some (.arr [])), .resp 200 none,
         .ok "\x7b\"score\": 90\x7d"⟩ =
      ⟨some "https://github.com/x/y",
       [.infoMsg "Repository already analyzed. Please enter a new URL or refresh the page to re-analyze."],
       0, 0⟩ :=
  duplicate_guard_one_fetch_one_llm "https://github.com/x/y"
    ⟨.resp 200 (some (.obj [])), .resp 200 (some (.arr [])), .resp 200 none,
     .ok "\x7b\"score\": 90\x7d"⟩
    ⟨.resp 200 (some (.obj [])), .resp 200 (some (.arr [])), .resp 200 none,
     .ok "\x7b\"score\": 90\x7d"⟩
    (by decide) rfl

/-- C5: the fetcher is total at its boundary — for every input and every
behavior of the three network calls it returns either a `RepoRecord` or a
tagged failure string; a non-200 primary response whose body carries an
API message yields the failure tagged with the HTTP status and that
message; and a timeout on any of the three calls yields the tagged timeout
failure. -/
theorem fetcher_total_at_boundary (owner repo : String) (token : Option String)
    (primary commits readme : CallResult) :
    ((∃ rec, fetch_repo_data owner repo token primary commits readme = .ok rec) ∨
      (∃ e, fetch_repo_data owner repo token primary commits readme = .error e)) ∧
    (∀ status fs m, primary = .resp status (some (.obj fs)) → status ≠ 200 →
      dictGet fs "message" = some (.str m) →
      fetch_repo_data owner repo token primary commits readme =
        .error ("GitHub API failed: " ++ toString status ++ " - " ++ m)) ∧
    (primary = .timeout →
      fetch_repo_data owner repo token primary commits readme =
        .error "Request to GitHub timed out.") ∧
    (∀ b, primary = .resp 200 (some b) → commits = .timeout →
      fetch_repo_data owner repo token primary commits readme =
        .error "Request to GitHub timed out.") ∧
    (∀ b s cb, primary = .resp 200 (some b) → commits = .resp s (some cb) →
      readme = .timeout →
      fetch_repo_data owner repo token primary commits readme =
        .error "Request to GitHub timed out.") := by
  refine ⟨?_, ?_, ?_, ?_, ?_⟩
  · rcases hres : fetch_repo_data owner repo token primary commits readme with e | rec
    · exact Or.inr ⟨e, rfl⟩
    · exact Or.inl ⟨rec, rfl⟩
  · rintro status fs m rfl h200 hmsg
    simp [fetch_repo_data, h200, pyGet, hmsg, pyStr]
  · rintro rfl
    rfl
  · rintro b rfl rfl
    rfl
  · rintro b s cb rfl rfl rfl
    rfl

/-- C5 (witness): the timeout tagging and the status-plus-message tagging at
concrete network behaviors. -/
theorem fetcher_total_at_boundary_witness :
    fetch_repo_data "o" "r" none .timeout (.resp 200 none) (.resp 200 none) =
      .error "Request to GitHub timed out." ∧
    fetch_repo_data "o" "r" none
        (.resp 404 (some (.obj [("message", JsonV.str "Not Found")])))
        (.resp 200 none) (.resp 200 none) =
      .error "GitHub API failed: 404 - Not Found" :=
  ⟨(fetcher_total_at_boundary "o" "r" none .timeout (.resp 200 none)
      (.resp 200 none)).2.2.1 rfl,
   (fetcher_total_at_boundary "o" "r" none
      (.resp 404 (some (.obj [("message", JsonV.str "Not Found")])))
      (.resp 200 none) (.resp 200 none)).2.1 404
      [("message", JsonV.str "Not Found")] "Not Found" rfl (by decide) rfl⟩

/-- C6: for every successful fetch the commit count is non-negative; when
the commits response body is a list of length `min n 50` — as the GitHub
API returns for a repository with `n` commits under `per_page=50` — the
record's commit count equals `min n 50`; and when the commits response body
is not a list the count is exactly 0. -/
theorem commit_count_capped (owner repo : String) (token : Option String)
    (primary commits readme : CallResult) (rec : RepoRecord)
    (hok : fetch_repo_data owner repo token primary commits readme = .ok rec) :
    0 ≤ rec.commits ∧
    (∀ s cb, commits = .resp s (some cb) →
      ((∀ n xs, cb = .arr xs → xs.length = min n 50 → rec.commits = min n 50) ∧
       ((∀ xs, cb ≠ .arr xs) → rec.commits = 0))) := by
  obtain ⟨fs, cs, cb, rs, rb, hp, hc, hr, hrec⟩ :=
    fetch_repo_data_ok_inversion owner repo token primary commits readme rec hok
  refine ⟨Nat.zero_le _, ?_⟩
  rintro s cb' hcb
  rw [hc] at hcb
  injection hcb with hcs hbody
  injection hbody with hcb'
  subst hcb'
  constructor
  · rintro n xs rfl hlen
    rw [hrec]
    exact hlen
  · intro hnot
    rw [hrec]
    cases cb with
    | arr xs => exact absurd rfl (hnot xs)
    | null => rfl
    | bool b => rfl
    | num n => rfl
    | str ss => rfl
    | obj ofs => rfl

/-- The record produced by the concrete fetch of the commit-count witness:
primary 200 with an empty object body, three commits, README check 404. -/
def commitWitnessRecord : RepoRecord :=
  { name := .null, description := .null, stars := .num 0, forks := .num 0,
    language := .str "Unknown", url := .null, commits := 3,
    readme := "No README found", topics := .arr [] }

/-- C6 (witness): a commits response of three entries under the 50-entry
page yields commit count `min 3 50 = 3`. -/
theorem commit_count_capped_witness :
    commitWitnessRecord.commits = min 3 50 ∧ 0 ≤ commitWitnessRecord.commits := by
  have h := commit_count_capped "o" "r" none (.resp 200 (some (.obj [])))
    (.resp 200 (some (.arr [.null, .null, .null]))) (.resp 404 none)
    commitWitnessRecord rfl
  exact ⟨((h.2 200 (.arr [.null, .null, .null]) rfl).1 3 [.null, .null, .null]
    rfl (by decide)), h.1⟩

/-- C8: the prompt builder is a pure function — equal records yield
byte-identical prompt strings — and the topics field is rendered inside the
prompt as the literal `None` when the topics sequence is empty, and as the
comma-joined string of the topics when non-empty. -/
theorem prompt_builder_pure_topics (r1 r2 : RepoRecord) (h : r1 = r2) :
    buildPrompt r1 = buildPrompt r2 ∧
    (r1.topics = .arr [] →
      buildPrompt r1 = some (promptPrefix r1 ++ "None" ++ promptSuffix)) ∧
    (∀ ss, r1.topics = .arr (ss.map JsonV.str) → ss ≠ [] →
      buildPrompt r1 =
        some (promptPrefix r1 ++ String.intercalate ", " ss ++ promptSuffix)) := by
  subst h
  refine ⟨rfl, ?_, ?_⟩
  · intro ht
    unfold buildPrompt topicsRendered
    rw [ht]
    rfl
  · intro ss ht hne
    have htr : pyTruthy (.arr (ss.map JsonV.str)) = true := by
      cases ss with
      | nil => exact absurd rfl hne
      | cons a t => rfl
    simp only [buildPrompt, topicsRendered, ht, htr, if_true, pyJoinCommaSpace,
      strs_all, strs_roundtrip]
    rfl

/-- C8 (witness): a record with empty topics renders the literal `None` in
its prompt. -/
theorem prompt_builder_pure_topics_witness :
    buildPrompt commitWitnessRecord = buildPrompt commitWitnessRecord ∧
    buildPrompt commitWitnessRecord =
      some (promptPrefix commitWitnessRecord ++ "None" ++ promptSuffix) := by
  have h := prompt_builder_pure_topics commitWitnessRecord commitWitnessRecord rfl
  exact ⟨h.1, h.2.1 rfl⟩

/-- C9: `last_analyzed_url` is written only by the success path — after any
button-press the session state is either unchanged (every failure path:
empty input, duplicate guard, URL validation, fetch failure, LLM failure,
parse failure, error-keyed result) or set to the submitted URL with the
success banner shown, so a failed request can be retried under the same
URL without being blocked by the duplicate guard. -/
theorem last_url_set_only_on_success (last : Option String) (u : String) (w : World) :
    (mainStep last u w).state = last ∨
      ((mainStep last u w).state = some u ∧
        UIEvent.successMsg "Analysis Complete!" ∈ (mainStep last u w).events) := by
  by_cases h : (mainStep last u w).state = last
  · exact Or.inl h
  · obtain ⟨h1, _, _, h4⟩ := mainStep_success_shape last u w h
    exact Or.inr ⟨h1, h4⟩

/-- C10: when the LLM reply parses to a JSON object carrying an `"error"`
key, the press is silently discarded — no display call at all is made (no
rendering and, unlike a parse failure, no error message) and the session's
`last_analyzed_url` is left unchanged, while the fetch and the LLM call
have both already happened. -/
theorem error_key_result_silently_discarded (last : Option String) (u text p : String)
    (w : World) (rec : RepoRecord) (fs : List (String × JsonV))
    (hu : u ≠ "") (hdup : last ≠ some u) (hval : ¬ urlInvalid (urlParts u) = true)
    (hfetch : fetch_repo_data (urlOwner u) (urlRepo u) none w.primary w.commits
      w.readme = .ok rec)
    (hprompt : buildPrompt rec = some p)
    (hllm : w.llm = .ok text)
    (hjson : json_loads (stripFences text) = some (.obj fs))
    (hkey : fs.any (fun f => f.1 = "error") = true) :
    mainStep last u w = ⟨last, [], 1, 1⟩ := by
  simp [mainStep, hu, hdup, hval, hfetch, get_ai_analysis, hprompt, hllm,
    parse_ai_text, hjson, pyInError, hkey]

/-- The record produced by a fetch whose primary body is the empty object,
commits body the empty list, and README check 200. -/
def emptyOkRecord : RepoRecord :=
  { name := .null, description := .null, stars := .num 0, forks := .num 0,
    language := .str "Unknown", url := .null, commits := 0,
    readme := "README exists and is accessible", topics := .arr [] }

/-- C10 (witness): the LLM reply `{"error": "llm failed"}` is valid JSON
with an `error` key; the press makes its fetch and LLM call and then shows
nothing and leaves the state unchanged. -/
theorem error_key_result_silently_discarded_witness :
    mainStep none "https://github.com/x/y"
        ⟨.resp 200 (some (.obj [])), .resp 200 (some (.arr [])), .resp 200 none,
         .ok "\x7b\"error\": \"llm failed\"\x7d"⟩ =
      ⟨none, [], 1, 1⟩ :=
  error_key_result_silently_discarded none "https://github.com/x/y"
    "\x7b\"error\": \"llm failed\"\x7d"
    (promptPrefix emptyOkRecord ++ "None" ++ promptSuffix)
    ⟨.resp 200 (some (.obj [])), .resp 200 (some (.arr [])), .resp 200 none,
     .ok "\x7b\"error\": \"llm failed\"\x7d"⟩
    emptyOkRecord
    [("error", .str "llm failed")]
    (by decide) (by decide) (by decide) rfl rfl rfl rfl rfl

end RepoScorer


